import Mathlib

/-!
Shallow embedding of the `plrs` AXI4-Stream FIFO driver
(`src/xilinx/src/stream_fifo.rs` and `src/xilinx/src/error.rs`).

Machine integers are modelled as `Nat` with explicit `% 2 ^ 32` where a
`u32` value enters the model, and bitwise `|` / `&` as `Nat.lor` /
`Nat.land`.  The driver talks to the device through the `uio_rs` map
accessors (`read_u32`, `write_u32`, `write_u64`, `write_u128`,
`read_exact`); those accesses are modelled as events logged to a trace,
with the values returned by reads supplied by a `Mock` record (the mock
control/data region of the spec's testable properties).  The underlying
bus accesses are assumed to succeed (the `?` on each accessor), since
every claim concerns the engine's own choreography, not substrate
failures.  Rust panics (`unimplemented!`, `unreachable!`, slice
out-of-bounds) are a distinct `crash` outcome, and the unbounded TX
completion poll loop is driven by the mock's finite status-response list,
with exhaustion a distinct `hang` outcome.  Target platforms for this
driver (arm64 / x86-64 Linux with UIO) are little-endian, so the
`from_ne_bytes` / `to_ne_bytes` pairs are modelled little-endian.
-/

namespace Plrs

/-- Supported data widths for the AXI Stream FIFO (`StreamFifoValue`). -/
inductive StreamFifoValue : Type
  | U32
  | U64
  | U128
  | U256
  | U512
deriving DecidableEq, Repr

/-- Model of `StreamFifoValue::byte_count`: byte count of the data width. -/
def StreamFifoValue.byte_count : StreamFifoValue → Nat
  | .U32 => 4
  | .U64 => 8
  | .U128 => 16
  | .U256 => 32
  | .U512 => 64

/-- Model of `StreamFifoValue::try_from_bits`. -/
def StreamFifoValue.try_from_bits (bits : Nat) : Option StreamFifoValue :=
  match bits with
  | 32 => some .U32
  | 64 => some .U64
  | 128 => some .U128
  | 256 => some .U256
  | 512 => some .U512
  | _ => none

/-- Crate error type (`error.rs`).  `NoMemoryMap` is the variant named by
`StreamFifo::try_from` in `stream_fifo.rs`; the `Io`/`Uio` payloads are
irrelevant to the claims and dropped. -/
inductive Error : Type
  | System
  | NoDevice
  | DeviceLock
  | Address
  | Parse
  | OutOfBound
  | Empty
  | Full
  | UnderRun
  | OverRun
  | LengthMismatch
  | NoMemoryMap
  | Io
  | Uio
deriving DecidableEq, Repr

/-- AXI Stream FIFO reset word. -/
def RESET_MAGIC : Nat := 0x000000A5

-- AXI-lite registers
def REG_INTERRUPT_STATUS : Nat := 0x00
def REG_INTERRUPT_ENABLE : Nat := 0x04
def REG_TX_RESET : Nat := 0x08
def REG_TX_VACANCY : Nat := 0x0c
def REG_TX_DATA : Nat := 0x10
def REG_TX_LENGTH : Nat := 0x14
def REG_RX_RESET : Nat := 0x18
def REG_RX_OCCUPANCY : Nat := 0x1c
def REG_RX_DATA : Nat := 0x20
def REG_RX_LENGTH : Nat := 0x24
def REG_AXI4_STREAM_RESET : Nat := 0x28
def REG_TX_DESTINATION : Nat := 0x2c
def REG_RX_DESTINATION : Nat := 0x30

-- AXI4 (data region) registers
def FULL_REG_WRITE : Nat := 0x00000000
def FULL_REG_READ : Nat := 0x00001000

-- Interrupt bits
def INTERRUPT_RX_UNDER_READ : Nat := 0x80000000
def INTERRUPT_RX_OVER_READ : Nat := 0x40000000
def INTERRUPT_RX_UNDER_RUN : Nat := 0x20000000
def INTERRUPT_TX_OVER_RUN : Nat := 0x10000000
def INTERRUPT_TX_COMPLETE : Nat := 0x08000000
def INTERRUPT_RX_COMPLETE : Nat := 0x04000000
def INTERRUPT_TX_LENGTH_MISMATCH : Nat := 0x02000000
def INTERRUPT_TX_RESET_COMPLETE : Nat := 0x01000000
def INTERRUPT_RX_RESET_COMPLETE : Nat := 0x00800000
def INTERRUPT_TX_PROGRAMMABLE_FULL : Nat := 0x00400000
def INTERRUPT_TX_PROGRAMMABLE_EMPTY : Nat := 0x00200000
def INTERRUPT_RX_PROGRAMMABLE_FULL : Nat := 0x00100000
def INTERRUPT_RX_PROGRAMMABLE_EMPTY : Nat := 0x00080000

/-- Mask `INTERRUPT_ALL`: or of every interrupt bit. -/
def INTERRUPT_ALL : Nat :=
  INTERRUPT_RX_PROGRAMMABLE_EMPTY
    ||| INTERRUPT_RX_PROGRAMMABLE_FULL
    ||| INTERRUPT_TX_PROGRAMMABLE_EMPTY
    ||| INTERRUPT_TX_PROGRAMMABLE_FULL
    ||| INTERRUPT_RX_RESET_COMPLETE
    ||| INTERRUPT_TX_RESET_COMPLETE
    ||| INTERRUPT_TX_LENGTH_MISMATCH
    ||| INTERRUPT_RX_COMPLETE
    ||| INTERRUPT_TX_COMPLETE
    ||| INTERRUPT_TX_OVER_RUN
    ||| INTERRUPT_RX_UNDER_RUN
    ||| INTERRUPT_RX_OVER_READ
    ||| INTERRUPT_RX_UNDER_READ

/-- Mask `INTERRUPT_RX_ERROR`: receive error status interrupts. -/
def INTERRUPT_RX_ERROR : Nat :=
  INTERRUPT_RX_UNDER_RUN ||| INTERRUPT_RX_OVER_READ ||| INTERRUPT_RX_UNDER_READ

/-- Mask `INTERRUPT_TX_ERROR`: transmit error status interrupts. -/
def INTERRUPT_TX_ERROR : Nat :=
  INTERRUPT_TX_OVER_RUN ||| INTERRUPT_TX_LENGTH_MISMATCH

/-- One bus access issued by the engine, as observed by a mock device. -/
inductive Ev : Type
  /-- Event `axi_lite.read_u32 off` returning `v`. -/
  | readL (off v : Nat)
  /-- Event `axi_lite.write_u32 off v`. -/
  | writeL (off v : Nat)
  /-- Event `axi.read_exact off n` on the data region. -/
  | readF (off n : Nat)
  /-- Event `axi.write_u32 / write_u64 / write_u128 off v` on the data region,
  tagged with the width of the bus transaction. -/
  | writeF (off : Nat) (w : StreamFifoValue) (v : Nat)
deriving DecidableEq, Repr

/-- Result of running one engine operation against the mock. -/
inductive Outcome (α : Type) : Type
  /-- The Rust function returned `Ok a`. -/
  | ok (a : α)
  /-- The Rust function returned `Err e`. -/
  | err (e : Error)
  /-- The Rust function panicked (`unimplemented!`, `unreachable!`, or a
  slice bounds / length violation). -/
  | crash
  /-- The TX completion poll loop consumed every status response the mock
  had, i.e. the call never returns in the model. -/
  | hang
deriving DecidableEq, Repr

/-- Mock device: the values the control and data regions return to the
engine's reads.  Reads that the engine performs at most once per call are
single values; the repeatedly-read sources are functions of the read
index (data chunks, `RX_DATA`) or a finite response list (the
`INTERRUPT_STATUS` poll loop in `write_bytes`). -/
structure Mock : Type where
  /-- Value returned by the `REG_RX_OCCUPANCY` read. -/
  occupancy : Nat
  /-- Value returned by the `REG_RX_LENGTH` read. -/
  rxLength : Nat
  /-- Value returned by the `REG_RX_DESTINATION` read. -/
  rxDestination : Nat
  /-- Value returned by the `REG_INTERRUPT_STATUS` read after draining. -/
  rxStatus : Nat
  /-- Byte `i` of the `n`-th `read_exact(FULL_REG_READ, W)` response. -/
  chunkByte : Nat → Nat → Nat
  /-- Value returned by the `n`-th `REG_RX_DATA` read. -/
  rxData : Nat → Nat
  /-- Value returned by the `REG_TX_VACANCY` read. -/
  txVacancy : Nat
  /-- Successive values returned by the `REG_INTERRUPT_STATUS` reads of
  the TX completion poll loop. -/
  txStatusSeq : List Nat

/-- The `StreamFifo` handle: declared width, the map index bound as the
control region, and the optional map index bound as the data region. -/
structure StreamFifo : Type where
  data_width : StreamFifoValue
  axi_lite : Nat
  axi : Option Nat
deriving DecidableEq, Repr

/-- Model of `StreamFifo::try_from(device, data_width)`, with the device abstracted
to the number of maps it advertises (`device.maps().len()`).  Mapping a
region (`Map::try_from_device`) performs no register access and is assumed
to succeed; the returned trace is the register accesses of construction. -/
def StreamFifo.try_from (numMaps : Nat) (data_width : StreamFifoValue) :
    Outcome StreamFifo × List Ev :=
  if 2 ≤ numMaps then
    (.ok ⟨data_width, 0, some 1⟩, [])
  else if numMaps = 1 then
    (.ok ⟨.U32, 0, none⟩, [])
  else
    (.err .NoMemoryMap, [])

/-- Trace of `StreamFifo::interrupts_clear`. -/
def interruptsClearTrace : List Ev :=
  [.writeL REG_INTERRUPT_STATUS INTERRUPT_ALL]

/-- Trace of `StreamFifo::interrupts_clear_rx`. -/
def interruptsClearRxTrace : List Ev :=
  [.writeL REG_INTERRUPT_STATUS (INTERRUPT_RX_ERROR ||| INTERRUPT_RX_COMPLETE)]

/-- Trace of `StreamFifo::interrupts_clear_tx`. -/
def interruptsClearTxTrace : List Ev :=
  [.writeL REG_INTERRUPT_STATUS (INTERRUPT_TX_ERROR ||| INTERRUPT_TX_COMPLETE)]

/-- The interrupt-enable mask written by `StreamFifo::reset`. -/
def resetEnableMask : Nat :=
  INTERRUPT_TX_COMPLETE
    ||| INTERRUPT_RX_COMPLETE
    ||| INTERRUPT_RX_UNDER_READ
    ||| INTERRUPT_RX_OVER_READ
    ||| INTERRUPT_RX_UNDER_RUN
    ||| INTERRUPT_TX_OVER_RUN
    ||| INTERRUPT_TX_LENGTH_MISMATCH

/-- Model of `StreamFifo::reset`: three reset-magic writes, the enable mask, then
`interrupts_clear`. -/
def StreamFifo.reset (_f : StreamFifo) : Outcome Unit × List Ev :=
  (.ok (),
    [.writeL REG_AXI4_STREAM_RESET RESET_MAGIC,
     .writeL REG_TX_RESET RESET_MAGIC,
     .writeL REG_RX_RESET RESET_MAGIC,
     .writeL REG_INTERRUPT_ENABLE resetEnableMask]
      ++ interruptsClearTrace)

/-- Model of `uN::from_ne_bytes` on a little-endian platform: fold the byte list
least-significant first. -/
def fromNeBytes : List Nat → Nat
  | [] => 0
  | b :: rest => b % 256 + 256 * fromNeBytes rest

/-- Model of `uN::to_ne_bytes` on a little-endian platform: `width` bytes,
least-significant first. -/
def toNeBytes (width v : Nat) : List Nat :=
  (List.range width).map (fun i => v / 256 ^ i % 256)

/-- Model of `data[offset..offset + chunk.len()].copy_from_slice(chunk)`, assuming
the range is in bounds (the callers guard it). -/
def setSlice (data : List Nat) (offset : Nat) (chunk : List Nat) : List Nat :=
  data.take offset ++ chunk ++ data.drop (offset + chunk.length)

/-- The drain loop of `read_bytes` over the data region: each iteration
is a `read_exact(FULL_REG_READ, fifo_word_size)` followed by the width
dispatch (`U256`/`U512` hit `unimplemented!`), the `uN` round trip of the
chunk, and the copy into `data[offset..offset + fifo_word_size]` (which
panics when the range exceeds the buffer).  Arguments: remaining
iteration count, current index `n`, current buffer. -/
def readLoopFull (width : StreamFifoValue) (chunkByte : Nat → Nat → Nat)
    (wordSize : Nat) : Nat → Nat → List Nat → Outcome (List Nat) × List Ev
  | 0, _, data => (.ok data, [])
  | k + 1, n, data =>
    let offset := n * wordSize
    let chunk := (List.range wordSize).map (fun i => chunkByte n i % 256)
    let ev : Ev := .readF FULL_REG_READ wordSize
    match width with
    | .U256 | .U512 => (.crash, [ev])
    | _ =>
      if offset + wordSize ≤ data.length then
        let next := setSlice data offset (toNeBytes wordSize (fromNeBytes chunk))
        let (res, t) := readLoopFull width chunkByte wordSize k (n + 1) next
        (res, ev :: t)
      else
        (.crash, [ev])

/-- The drain loop of `read_bytes` through the control region's `RX_DATA`
port: a `read_u32` per iteration, then
`data[offset..offset + fifo_word_size].copy_from_slice(&v.to_ne_bytes())`,
which panics when the range exceeds the buffer or `fifo_word_size ≠ 4`. -/
def readLoopLite (rxData : Nat → Nat) (wordSize : Nat) :
    Nat → Nat → List Nat → Outcome (List Nat) × List Ev
  | 0, _, data => (.ok data, [])
  | k + 1, n, data =>
    let offset := n * wordSize
    let v := rxData n % 2 ^ 32
    let ev : Ev := .readL REG_RX_DATA v
    if offset + wordSize ≤ data.length ∧ wordSize = 4 then
      let next := setSlice data offset (toNeBytes 4 v)
      let (res, t) := readLoopLite rxData wordSize k (n + 1) next
      (res, ev :: t)
    else
      (.crash, [ev])

/-- The drain loop of `read_bytes`, dispatched on whether the handle has
a data region. -/
def StreamFifo.readDrain (f : StreamFifo) (mock : Mock) (count : Nat)
    (data : List Nat) : Outcome (List Nat) × List Ev :=
  match f.axi with
  | some _ => readLoopFull f.data_width mock.chunkByte f.data_width.byte_count count 0 data
  | none => readLoopLite mock.rxData f.data_width.byte_count count 0 data

/-- Model of `StreamFifo::read_bytes`: occupancy gate, RX interrupt clear, length
and destination reads, the drain loop, then the status read with error
classification (after a full `reset`).  Returns the updated caller buffer
together with the `(read_bytes, destination)` pair. -/
def StreamFifo.read_bytes (f : StreamFifo) (mock : Mock) (data : List Nat) :
    Outcome (List Nat × Nat × Nat) × List Ev :=
  let occupancy := mock.occupancy % 2 ^ 32
  if occupancy = 0 then
    (.err .Empty, [.readL REG_RX_OCCUPANCY occupancy])
  else
    let rxLen := mock.rxLength % 2 ^ 32
    let packet_bytes := rxLen &&& 0x003fffff
    let read_bytes_n := min data.length packet_bytes
    let destVal := mock.rxDestination % 2 ^ 32
    let destination := destVal % 2 ^ 8
    let fifo_word_size := f.data_width.byte_count
    let read_count := (read_bytes_n + (fifo_word_size - 1)) / fifo_word_size
    let (drained, drainEvs) := f.readDrain mock read_count data
    let pre := Ev.readL REG_RX_OCCUPANCY occupancy :: interruptsClearRxTrace
        ++ [Ev.readL REG_RX_LENGTH rxLen, Ev.readL REG_RX_DESTINATION destVal]
    match drained with
    | .ok data2 =>
      let interrupts := mock.rxStatus % 2 ^ 32
      let evSt : Ev := .readL REG_INTERRUPT_STATUS interrupts
      if interrupts &&& INTERRUPT_RX_ERROR ≠ 0 then
        let res : Outcome (List Nat × Nat × Nat) :=
          if interrupts &&& INTERRUPT_RX_OVER_READ = INTERRUPT_RX_OVER_READ then
            .err .OverRun
          else if interrupts &&& INTERRUPT_RX_UNDER_READ = INTERRUPT_RX_UNDER_READ
              ∨ interrupts &&& INTERRUPT_RX_UNDER_RUN = INTERRUPT_RX_UNDER_RUN then
            .err .UnderRun
          else
            .crash
        (res, pre ++ drainEvs ++ evSt :: (StreamFifo.reset f).2)
      else
        (.ok (data2, read_bytes_n, destination), pre ++ drainEvs ++ [evSt])
    | .err e => (.err e, pre ++ drainEvs)
    | .crash => (.crash, pre ++ drainEvs)
    | .hang => (.hang, pre ++ drainEvs)

/-- One data-region word write of `write_bytes`: width dispatch to
`write_u32` / `write_u64` / `write_u128` at `FULL_REG_WRITE`
(`U256`/`U512` hit `unimplemented!`).  `bytes` has length
`fifo_word_size`, so the `try_into().unwrap()` in each arm succeeds. -/
def writeWordFull (width : StreamFifoValue) (bytes : List Nat) : Outcome Ev :=
  match width with
  | .U32 => .ok (.writeF FULL_REG_WRITE .U32 (fromNeBytes bytes))
  | .U64 => .ok (.writeF FULL_REG_WRITE .U64 (fromNeBytes bytes))
  | .U128 => .ok (.writeF FULL_REG_WRITE .U128 (fromNeBytes bytes))
  | .U256 => .crash
  | .U512 => .crash

/-- The full-chunk loop of `write_bytes` over the data region
(`data.chunks_exact(fifo_word_size)`). -/
def writeLoopFull (width : StreamFifoValue) (data : List Nat) (wordSize : Nat) :
    Nat → Nat → Outcome Unit × List Ev
  | 0, _ => (.ok (), [])
  | k + 1, n =>
    let chunk := (data.drop (n * wordSize)).take wordSize
    match writeWordFull width chunk with
    | .ok ev =>
      let (res, t) := writeLoopFull width data wordSize k (n + 1)
      (res, ev :: t)
    | _ => (.crash, [])

/-- The data-emission phase of `write_bytes` over the data region: all
full chunks, then the zero-padded remainder (copied into the 64-byte
stack buffer and truncated to one word). -/
def writeEmitFull (width : StreamFifoValue) (data : List Nat) (wordSize : Nat) :
    Outcome Unit × List Ev :=
  let chunksCount := data.length / wordSize
  let remainder := data.drop (chunksCount * wordSize)
  let (res, t) := writeLoopFull width data wordSize chunksCount 0
  match res with
  | .ok _ =>
    if remainder.length > 0 then
      let part := remainder ++ List.replicate (wordSize - remainder.length) 0
      match writeWordFull width part with
      | .ok ev => (.ok (), t ++ [ev])
      | _ => (.crash, t)
    else
      (.ok (), t)
  | r => (r, t)

/-- The full-chunk loop of `write_bytes` through the control region's
`TX_DATA` port: `u32::from_ne_bytes(chunk.try_into().unwrap())` panics
unless the chunk (of length `fifo_word_size`) has exactly 4 bytes. -/
def writeLoopLite (data : List Nat) (wordSize : Nat) :
    Nat → Nat → Outcome Unit × List Ev
  | 0, _ => (.ok (), [])
  | k + 1, n =>
    let chunk := (data.drop (n * wordSize)).take wordSize
    if wordSize = 4 then
      let ev : Ev := .writeL REG_TX_DATA (fromNeBytes chunk)
      let (res, t) := writeLoopLite data wordSize k (n + 1)
      (res, ev :: t)
    else
      (.crash, [])

/-- The data-emission phase of `write_bytes` through the control region:
all full chunks, then the zero-padded remainder, each as a 32-bit
`TX_DATA` write. -/
def writeEmitLite (data : List Nat) (wordSize : Nat) : Outcome Unit × List Ev :=
  let chunksCount := data.length / wordSize
  let remainder := data.drop (chunksCount * wordSize)
  let (res, t) := writeLoopLite data wordSize chunksCount 0
  match res with
  | .ok _ =>
    if remainder.length > 0 then
      let part := remainder ++ List.replicate (wordSize - remainder.length) 0
      if wordSize = 4 then
        (.ok (), t ++ [.writeL REG_TX_DATA (fromNeBytes part)])
      else
        (.crash, t)
    else
      (.ok (), t)
  | r => (r, t)

/-- The data-emission phase of `write_bytes`, dispatched on whether the
handle has a data region. -/
def StreamFifo.writeEmit (f : StreamFifo) (data : List Nat) :
    Outcome Unit × List Ev :=
  match f.axi with
  | some _ => writeEmitFull f.data_width data f.data_width.byte_count
  | none => writeEmitLite data f.data_width.byte_count

/-- The TX completion poll loop of `write_bytes`, driven by the mock's
finite status-response list: on a TX error bit, a full `reset` then the
classification; on `TX_COMPLETE`, success; otherwise poll again. -/
def txPoll (f : StreamFifo) : List Nat → Outcome Unit × List Ev
  | [] => (.hang, [])
  | v :: rest =>
    let interrupts := v % 2 ^ 32
    let ev : Ev := .readL REG_INTERRUPT_STATUS interrupts
    if interrupts &&& INTERRUPT_TX_ERROR ≠ 0 then
      let res : Outcome Unit :=
        if interrupts &&& INTERRUPT_TX_OVER_RUN = INTERRUPT_TX_OVER_RUN then
          .err .OverRun
        else if interrupts &&& INTERRUPT_TX_LENGTH_MISMATCH = INTERRUPT_TX_LENGTH_MISMATCH then
          .err .LengthMismatch
        else
          .crash
      (res, ev :: (StreamFifo.reset f).2)
    else if interrupts &&& INTERRUPT_TX_COMPLETE ≠ 0 then
      (.ok (), [ev])
    else
      let (res, t) := txPoll f rest
      (res, ev :: t)

/-- Model of `StreamFifo::write_bytes`: TX interrupt clear, vacancy gate,
destination write (`destination & 0x0f`), the data-emission phase, the
`TX_LENGTH` write of the byte count (as `u32`), then the completion poll
loop. -/
def StreamFifo.write_bytes (f : StreamFifo) (mock : Mock) (data : List Nat)
    (destination : Nat) : Outcome Nat × List Ev :=
  let fifo_word_size := f.data_width.byte_count
  let word_count := (data.length + (fifo_word_size - 1)) / fifo_word_size
  let vacancy := mock.txVacancy % 2 ^ 32
  let evVac : Ev := .readL REG_TX_VACANCY vacancy
  if vacancy < word_count then
    (.err .Full, interruptsClearTxTrace ++ [evVac])
  else
    let dst := destination % 2 ^ 8
    let evDest : Ev := .writeL REG_TX_DESTINATION (dst &&& 0x0f)
    let (emitted, emitEvs) := f.writeEmit data
    let pre := interruptsClearTxTrace ++ [evVac, evDest]
    match emitted with
    | .ok _ =>
      let num_bytes := data.length
      let evLen : Ev := .writeL REG_TX_LENGTH (num_bytes % 2 ^ 32)
      let (polled, pollEvs) := txPoll f mock.txStatusSeq
      let full := pre ++ emitEvs ++ evLen :: pollEvs
      match polled with
      | .ok _ => (.ok num_bytes, full)
      | .err e => (.err e, full)
      | .crash => (.crash, full)
      | .hang => (.hang, full)
    | .err e => (.err e, pre ++ emitEvs)
    | .crash => (.crash, pre ++ emitEvs)
    | .hang => (.hang, pre ++ emitEvs)

/-- An event is a write to the TX data port: a 32-bit `TX_DATA` write on
the control region or any write on the data region. -/
def Ev.isDataPortWrite : Ev → Bool
  | .writeL off _ => off == REG_TX_DATA
  | .writeF _ _ _ => true
  | _ => false

/-- An event is a `write_u32` to the given control-region offset. -/
def Ev.isWriteTo (off : Nat) : Ev → Bool
  | .writeL o _ => o == off
  | _ => false

/-- A mock whose every read returns zero and whose poll-response list is
empty; concrete scenarios override the fields they need. -/
def mockZero : Mock :=
  { occupancy := 0
    rxLength := 0
    rxDestination := 0
    rxStatus := 0
    chunkByte := fun _ _ => 0
    rxData := fun _ => 0
    txVacancy := 0
    txStatusSeq := [] }

/-- C10: every width has a positive byte count (4, 8, 16, 32, 64 for the
five variants), the byte count is its bit width divided by 8, and
`try_from_bits` round-trips the bit width back to the same variant. -/
theorem width_byte_count_roundtrip :
    ∀ w : StreamFifoValue,
      0 < w.byte_count
        ∧ w.byte_count = 8 * w.byte_count / 8
        ∧ StreamFifoValue.try_from_bits (8 * w.byte_count) = some w
        ∧ StreamFifoValue.byte_count .U32 = 4
        ∧ StreamFifoValue.byte_count .U64 = 8
        ∧ StreamFifoValue.byte_count .U128 = 16
        ∧ StreamFifoValue.byte_count .U256 = 32
        ∧ StreamFifoValue.byte_count .U512 = 64 := by
  intro w
  cases w <;> exact ⟨by decide, by decide, by decide, rfl, rfl, rfl, rfl, rfl⟩

/-- C1 (counterexample): the reset trace does not write `0xBA600000` to
`INTERRUPT_ENABLE` as the claim states; the enable mask the code builds
from the seven listed bits is `0xFE000000`. -/
theorem reset_claim_mask_counterexample :
    ((StreamFifo.mk .U32 0 none).reset).2
        ≠ [.writeL REG_AXI4_STREAM_RESET 0xA5,
           .writeL REG_TX_RESET 0xA5,
           .writeL REG_RX_RESET 0xA5,
           .writeL REG_INTERRUPT_ENABLE 0xBA600000,
           .writeL REG_INTERRUPT_STATUS INTERRUPT_ALL]
      ∧ resetEnableMask = 0xFE000000 := by
  exact ⟨by decide, by decide⟩

/-- C1 (amended): every `reset` call performs exactly these writes in this
order: `RESET_MAGIC` (0xA5) to `AXI4_STREAM_RESET`, then to `TX_RESET`,
then to `RX_RESET`, then the canonical enable mask `0xFE000000` (the or
of the seven listed interrupt bits) to `INTERRUPT_ENABLE`, then
`INTERRUPT_ALL` (= `0xFFF80000`) to `INTERRUPT_STATUS`. -/
theorem reset_trace_shape (f : StreamFifo) :
    f.reset
      = (.ok (),
         [.writeL REG_AXI4_STREAM_RESET 0xA5,
          .writeL REG_TX_RESET 0xA5,
          .writeL REG_RX_RESET 0xA5,
          .writeL REG_INTERRUPT_ENABLE 0xFE000000,
          .writeL REG_INTERRUPT_STATUS 0xFFF80000])
        ∧ INTERRUPT_ALL = 0xFFF80000 := by
  exact ⟨by rfl, by decide⟩

/-- C9 (scenario S1): on a W32 control-only handle,
`write_bytes([0x01,0x02,0x03,0x04,0x05], destination = 0x23)` against a
mock with vacancy 2 and a `TX_COMPLETE` status clears the TX interrupts,
reads the vacancy, writes `0x03` (the low nibble) to `TX_DESTINATION`,
then the two 32-bit words `0x04030201` and `0x00000005` to `TX_DATA`,
then `5` to `TX_LENGTH`, polls the status once, and returns `Ok(5)`. -/
theorem write_scenario_s1 :
    (StreamFifo.mk .U32 0 none).write_bytes
        { mockZero with txVacancy := 2, txStatusSeq := [INTERRUPT_TX_COMPLETE] }
        [0x01, 0x02, 0x03, 0x04, 0x05] 0x23
      = (.ok 5,
         [.writeL REG_INTERRUPT_STATUS (INTERRUPT_TX_ERROR ||| INTERRUPT_TX_COMPLETE),
          .readL REG_TX_VACANCY 2,
          .writeL REG_TX_DESTINATION 0x03,
          .writeL REG_TX_DATA 0x04030201,
          .writeL REG_TX_DATA 0x00000005,
          .writeL REG_TX_LENGTH 5,
          .readL REG_INTERRUPT_STATUS INTERRUPT_TX_COMPLETE]) := by
  decide

/-- C3 (failing input): on a W32 control-only handle with RX occupancy 1
and a 5-byte packet, `read_bytes` on a 5-byte buffer computes
`read_count = 2` and the second copy targets `data[4..8]`, which is out
of bounds for the 5-byte buffer — the call panics instead of completing.
The trace shows both `RX_DATA` reads were issued before the panic. -/
theorem read_oob_crash_at_failing_input :
    (StreamFifo.mk .U32 0 none).read_bytes
        { mockZero with occupancy := 1, rxLength := 5, rxDestination := 2 }
        [0, 0, 0, 0, 0]
      = (.crash,
         [.readL REG_RX_OCCUPANCY 1,
          .writeL REG_INTERRUPT_STATUS (INTERRUPT_RX_ERROR ||| INTERRUPT_RX_COMPLETE),
          .readL REG_RX_LENGTH 5,
          .readL REG_RX_DESTINATION 2,
          .readL REG_RX_DATA 0,
          .readL REG_RX_DATA 0]) := by
  decide

/-- C5: whenever the `RX_OCCUPANCY` read returns zero, `read_bytes`
returns `Empty` and the whole trace of the call is that single occupancy
read — no other RX register is read, no data-region access happens, and
no `INTERRUPT_STATUS` write is issued. -/
theorem read_empty_precedence (f : StreamFifo) (mock : Mock) (data : List Nat)
    (h : mock.occupancy % 2 ^ 32 = 0) :
    f.read_bytes mock data = (.err .Empty, [.readL REG_RX_OCCUPANCY 0]) := by
  unfold StreamFifo.read_bytes
  rw [h]
  simp

/-- Witness for C5 at a concrete handle, mock and buffer. -/
theorem read_empty_precedence_witness :
    (StreamFifo.mk .U64 0 (some 1)).read_bytes mockZero [0, 0, 0, 0]
      = (.err .Empty, [.readL REG_RX_OCCUPANCY 0]) :=
  read_empty_precedence (StreamFifo.mk .U64 0 (some 1)) mockZero [0, 0, 0, 0] (by decide)

/-- C7: construction from a device advertising `numMaps` regions is
deterministic and touches no register (the construction trace is empty):
with two or more maps the handle binds map 0 as control, map 1 as data,
and keeps the declared width; with exactly one map it has no data region
and width forced to `U32`; with zero maps it fails with `NoMemoryMap`. -/
theorem try_from_construction (numMaps : Nat) (w : StreamFifoValue) :
    (2 ≤ numMaps →
        StreamFifo.try_from numMaps w = (.ok (StreamFifo.mk w 0 (some 1)), []))
      ∧ (numMaps = 1 →
        StreamFifo.try_from numMaps w = (.ok (StreamFifo.mk .U32 0 none), []))
      ∧ (numMaps = 0 →
        StreamFifo.try_from numMaps w = (.err .NoMemoryMap, [])) := by
  refine ⟨fun h2 => ?_, fun h1 => ?_, fun h0 => ?_⟩
  · unfold StreamFifo.try_from
    rw [if_pos h2]
  · subst h1
    unfold StreamFifo.try_from
    rw [if_neg (by decide : ¬ 2 ≤ 1), if_pos rfl]
  · subst h0
    unfold StreamFifo.try_from
    rw [if_neg (by decide : ¬ 2 ≤ 0), if_neg (by decide : ¬ (0 : Nat) = 1)]

/-- Witness for C7 at map counts 2, 1 and 0 with width `U64`. -/
theorem try_from_construction_witness :
    StreamFifo.try_from 2 .U64 = (.ok (StreamFifo.mk .U64 0 (some 1)), [])
      ∧ StreamFifo.try_from 1 .U64 = (.ok (StreamFifo.mk .U32 0 none), [])
      ∧ StreamFifo.try_from 0 .U64 = (.err .NoMemoryMap, []) :=
  ⟨(try_from_construction 2 .U64).1 (by decide),
   (try_from_construction 1 .U64).2.1 (by decide),
   (try_from_construction 0 .U64).2.2 (by decide)⟩

/-- C4: when the `TX_VACANCY` read returns fewer free words than
`ceil(len(data) / W)`, `write_bytes` returns `Full` after only the TX
interrupt clear and the vacancy read: zero writes to the data port
(`TX_DATA` or the data region), zero writes to `TX_LENGTH`, and zero
writes to `TX_DESTINATION`. -/
theorem write_full_precedence (f : StreamFifo) (mock : Mock) (data : List Nat)
    (dest : Nat)
    (h : mock.txVacancy % 2 ^ 32
        < (data.length + (f.data_width.byte_count - 1)) / f.data_width.byte_count) :
    f.write_bytes mock data dest
        = (.err .Full,
           interruptsClearTxTrace ++ [.readL REG_TX_VACANCY (mock.txVacancy % 2 ^ 32)])
      ∧ (f.write_bytes mock data dest).2.filter Ev.isDataPortWrite = []
      ∧ (f.write_bytes mock data dest).2.filter (Ev.isWriteTo REG_TX_LENGTH) = []
      ∧ (f.write_bytes mock data dest).2.filter (Ev.isWriteTo REG_TX_DESTINATION) = [] := by
  have hmain : f.write_bytes mock data dest
      = (.err .Full,
         interruptsClearTxTrace ++ [.readL REG_TX_VACANCY (mock.txVacancy % 2 ^ 32)]) := by
    unfold StreamFifo.write_bytes
    rw [if_pos h]
  refine ⟨hmain, ?_, ?_, ?_⟩ <;>
    rw [hmain] <;>
    simp [interruptsClearTxTrace, Ev.isDataPortWrite, Ev.isWriteTo,
      REG_INTERRUPT_STATUS, REG_TX_VACANCY, REG_TX_DATA, REG_TX_LENGTH,
      REG_TX_DESTINATION]

/-- Witness for C4: a W64 handle, vacancy 1 against the 2 words required
by 16 bytes of data. -/
theorem write_full_precedence_witness :
    (StreamFifo.mk .U64 0 (some 1)).write_bytes { mockZero with txVacancy := 1 }
        (List.replicate 16 0xAA) 3
      = (.err .Full, interruptsClearTxTrace ++ [.readL REG_TX_VACANCY 1]) :=
  (write_full_precedence (StreamFifo.mk .U64 0 (some 1))
    { mockZero with txVacancy := 1 } (List.replicate 16 0xAA) 3 (by decide)).1

/-- C2 (counterexample): on a W256 handle with a data region, occupancy 1
and a 32-byte packet, `read_bytes` into a 32-byte buffer does not return
the requested count — it panics (`unimplemented!`) on the first drained
word, so the transactional path aborts rather than logging and falling
through. -/
theorem read_wide_claim_counterexample :
    ((StreamFifo.mk .U256 0 (some 1)).read_bytes
        { mockZero with occupancy := 1, rxLength := 32 }
        (List.replicate 32 0)).1 = .crash := by
  decide

/-- One drain iteration at width `U256` or `U512` panics right after the
`read_exact` of the chunk. -/
theorem readLoopFull_wide_crash (w : StreamFifoValue)
    (hw : w = .U256 ∨ w = .U512) (cb : Nat → Nat → Nat) (ws k n : Nat)
    (data : List Nat) :
    readLoopFull w cb ws (k + 1) n data = (.crash, [.readF FULL_REG_READ ws]) := by
  rcases hw with h | h <;> subst h <;> rfl

/-- C2 (amended): for width `U256` or `U512` on a handle with a data
region, non-zero occupancy and at least one word to drain, `read_bytes`
panics (`unimplemented!`) instead of returning; the wide widths are
refused by aborting, not by logging and still reporting the requested
count. -/
theorem read_wide_crashes (f : StreamFifo) (mock : Mock) (buf : List Nat)
    (m : Nat) (hax : f.axi = some m)
    (hw : f.data_width = .U256 ∨ f.data_width = .U512)
    (hocc : mock.occupancy % 2 ^ 32 ≠ 0)
    (hn : 0 < min buf.length ((mock.rxLength % 2 ^ 32) &&& 0x003fffff)) :
    (f.read_bytes mock buf).1 = .crash := by
  have hW : 0 < f.data_width.byte_count := by
    rcases hw with h | h <;> rw [h] <;> decide
  have hpos : 0 < (min buf.length ((mock.rxLength % 2 ^ 32) &&& 0x003fffff)
      + (f.data_width.byte_count - 1)) / f.data_width.byte_count :=
    Nat.div_pos (by omega) hW
  have hdrain : f.readDrain mock
      ((min buf.length ((mock.rxLength % 2 ^ 32) &&& 0x003fffff)
        + (f.data_width.byte_count - 1)) / f.data_width.byte_count) buf
      = (.crash, [.readF FULL_REG_READ f.data_width.byte_count]) := by
    unfold StreamFifo.readDrain
    rw [hax]
    obtain ⟨k, hk⟩ := Nat.exists_eq_succ_of_ne_zero (Nat.pos_iff_ne_zero.mp hpos)
    rw [hk]
    exact readLoopFull_wide_crash _ hw _ _ _ _ _
  simp only [StreamFifo.read_bytes]
  rw [if_neg hocc, hdrain]

/-- Witness for the amended C2 at a concrete W512 handle and mock. -/
theorem read_wide_crashes_witness :
    ((StreamFifo.mk .U512 0 (some 1)).read_bytes
        { mockZero with occupancy := 1, rxLength := 64 }
        (List.replicate 64 0)).1 = .crash :=
  read_wide_crashes (StreamFifo.mk .U512 0 (some 1))
    { mockZero with occupancy := 1, rxLength := 64 }
    (List.replicate 64 0) 1 rfl (Or.inr rfl) (by decide) (by decide)

/-- A successful width-dispatched word write emits a data-region write. -/
theorem writeWordFull_ok_shape (w : StreamFifoValue) (bytes : List Nat)
    (ev : Ev) (h : writeWordFull w bytes = .ok ev) :
    ev.isDataPortWrite = true := by
  cases w <;> simp [writeWordFull] at h <;> simp [← h, Ev.isDataPortWrite]

/-- Every event of the data-region chunk loop is a data-port write. -/
theorem writeLoopFull_events (w : StreamFifoValue) (data : List Nat)
    (ws : Nat) :
    ∀ k n ev, ev ∈ (writeLoopFull w data ws k n).2 → ev.isDataPortWrite = true := by
  intro k
  induction k with
  | zero => intro n ev h; simp [writeLoopFull] at h
  | succ k ih =>
    intro n ev h
    cases hww : writeWordFull w ((data.drop (n * ws)).take ws) with
    | ok ev' =>
      simp only [writeLoopFull, hww] at h
      rcases List.mem_cons.mp h with h | h
      · subst h
        exact writeWordFull_ok_shape w _ _ hww
      · exact ih _ _ h
    | err e => simp [writeLoopFull, hww] at h
    | crash => simp [writeLoopFull, hww] at h
    | hang => simp [writeLoopFull, hww] at h

/-- Every event of the data-region emission phase is a data-port write. -/
theorem writeEmitFull_events (w : StreamFifoValue) (data : List Nat)
    (ws : Nat) :
    ∀ ev ∈ (writeEmitFull w data ws).2, ev.isDataPortWrite = true := by
  intro ev h
  simp only [writeEmitFull] at h
  cases hloop : writeLoopFull w data ws (data.length / ws) 0 with
  | mk res t =>
    rw [hloop] at h
    have ht : ∀ e ∈ t, Ev.isDataPortWrite e = true := by
      intro e he
      exact writeLoopFull_events w data ws _ _ e (by rw [hloop]; exact he)
    cases res with
    | ok u =>
      by_cases hr : (data.drop (data.length / ws * ws)).length > 0
      · rw [if_pos hr] at h
        cases hww : writeWordFull w ((data.drop (data.length / ws * ws))
            ++ List.replicate (ws - (data.drop (data.length / ws * ws)).length) 0) with
        | ok ev' =>
          simp only [hww] at h
          rcases List.mem_append.mp h with h | h
          · exact ht ev h
          · rw [List.mem_singleton.mp h]
            exact writeWordFull_ok_shape w _ _ hww
        | err e => simp only [hww] at h; exact ht ev h
        | crash => simp only [hww] at h; exact ht ev h
        | hang => simp only [hww] at h; exact ht ev h
      · rw [if_neg hr] at h
        exact ht ev h
    | err e => exact ht ev h
    | crash => exact ht ev h
    | hang => exact ht ev h

/-- Every event of the control-region chunk loop is a data-port write. -/
theorem writeLoopLite_events (data : List Nat) (ws : Nat) :
    ∀ k n ev, ev ∈ (writeLoopLite data ws k n).2 → ev.isDataPortWrite = true := by
  intro k
  induction k with
  | zero => intro n ev h; simp [writeLoopLite] at h
  | succ k ih =>
    intro n ev h
    by_cases hws : ws = 4
    · simp only [writeLoopLite, if_pos hws] at h
      rcases List.mem_cons.mp h with h | h
      · subst h
        simp [Ev.isDataPortWrite, REG_TX_DATA]
      · exact ih _ _ h
    · simp [writeLoopLite, if_neg hws] at h

/-- Every event of the control-region emission phase is a data-port write. -/
theorem writeEmitLite_events (data : List Nat) (ws : Nat) :
    ∀ ev ∈ (writeEmitLite data ws).2, ev.isDataPortWrite = true := by
  intro ev h
  simp only [writeEmitLite] at h
  cases hloop : writeLoopLite data ws (data.length / ws) 0 with
  | mk res t =>
    rw [hloop] at h
    have ht : ∀ e ∈ t, Ev.isDataPortWrite e = true := by
      intro e he
      exact writeLoopLite_events data ws _ _ e (by rw [hloop]; exact he)
    cases res with
    | ok u =>
      by_cases hr : (data.drop (data.length / ws * ws)).length > 0
      · rw [if_pos hr] at h
        by_cases hws : ws = 4
        · rw [if_pos hws] at h
          rcases List.mem_append.mp h with h | h
          · exact ht ev h
          · rw [List.mem_singleton.mp h]
            simp [Ev.isDataPortWrite, REG_TX_DATA]
        · rw [if_neg hws] at h
          exact ht ev h
      · rw [if_neg hr] at h
        exact ht ev h
    | err e => exact ht ev h
    | crash => exact ht ev h
    | hang => exact ht ev h

/-- Every event of the emission phase is a data-port write. -/
theorem writeEmit_events (f : StreamFifo) (data : List Nat) :
    ∀ ev ∈ (f.writeEmit data).2, ev.isDataPortWrite = true := by
  intro ev h
  unfold StreamFifo.writeEmit at h
  cases hax : f.axi with
  | some m =>
    rw [hax] at h
    exact writeEmitFull_events _ _ _ ev h
  | none =>
    rw [hax] at h
    exact writeEmitLite_events _ _ ev h

/-- A data-port write is never a `write_u32` to a control register other
than `TX_DATA`; in particular never to `TX_LENGTH`. -/
theorem isDataPortWrite_not_txLength (ev : Ev)
    (h : ev.isDataPortWrite = true) :
    ev.isWriteTo REG_TX_LENGTH = false := by
  cases ev with
  | writeL off v =>
    simp only [Ev.isDataPortWrite, REG_TX_DATA, beq_iff_eq] at h
    subst h
    rfl
  | readL off v => rfl
  | readF off n => rfl
  | writeF off w v => rfl

/-- The reset trace, spelled out. -/
theorem reset_trace_events (f : StreamFifo) :
    (f.reset).2
      = [.writeL REG_AXI4_STREAM_RESET RESET_MAGIC,
         .writeL REG_TX_RESET RESET_MAGIC,
         .writeL REG_RX_RESET RESET_MAGIC,
         .writeL REG_INTERRUPT_ENABLE resetEnableMask,
         .writeL REG_INTERRUPT_STATUS INTERRUPT_ALL] := rfl

/-- The TX completion poll loop never writes to `TX_LENGTH` (its events
are status reads, plus the reset writes on an error, none of which target
`TX_LENGTH`). -/
theorem txPoll_no_txLength (f : StreamFifo) :
    ∀ seq ev, ev ∈ (txPoll f seq).2 → ev.isWriteTo REG_TX_LENGTH = false := by
  intro seq
  induction seq with
  | nil => intro ev h; simp [txPoll] at h
  | cons v rest ih =>
    intro ev h
    by_cases herr : (v % 2 ^ 32) &&& INTERRUPT_TX_ERROR ≠ 0
    · simp only [txPoll, if_pos herr] at h
      rcases List.mem_cons.mp h with h | h
      · subst h; rfl
      · rw [reset_trace_events f] at h
        simp only [List.mem_cons, List.not_mem_nil, or_false] at h
        rcases h with h | h | h | h | h <;> subst h <;> rfl
    · by_cases hc : (v % 2 ^ 32) &&& INTERRUPT_TX_COMPLETE ≠ 0
      · simp only [txPoll, if_neg herr, if_pos hc] at h
        rcases List.mem_singleton.mp h with h
        subst h; rfl
      · simp only [txPoll, if_neg herr, if_neg hc] at h
        rcases List.mem_cons.mp h with h | h
        · subst h; rfl
        · exact ih ev h

/-- C8: a successful `write_bytes` (vacancy check passed, emission phase
completed, poll loop observed completion) returns `len(data)` and its
trace contains exactly one `TX_LENGTH` write, whose value is the byte
count `len(data)` — not the word count and not the padded length. -/
theorem write_length_register (f : StreamFifo) (mock : Mock)
    (data : List Nat) (dest : Nat) (wevs : List Ev)
    (hlen : data.length < 2 ^ 32)
    (hvac : ¬ (mock.txVacancy % 2 ^ 32
        < (data.length + (f.data_width.byte_count - 1)) / f.data_width.byte_count))
    (hemit : f.writeEmit data = (.ok (), wevs))
    (hpoll : (txPoll f mock.txStatusSeq).1 = .ok ()) :
    (f.write_bytes mock data dest).1 = .ok data.length
      ∧ (f.write_bytes mock data dest).2.filter (Ev.isWriteTo REG_TX_LENGTH)
        = [.writeL REG_TX_LENGTH data.length] := by
  have hp : txPoll f mock.txStatusSeq
      = (.ok (), (txPoll f mock.txStatusSeq).2) := by
    conv_lhs => rw [show txPoll f mock.txStatusSeq
      = ((txPoll f mock.txStatusSeq).1, (txPoll f mock.txStatusSeq).2) from rfl]
    rw [hpoll]
  have hmain : f.write_bytes mock data dest
      = (.ok data.length,
         interruptsClearTxTrace
           ++ [.readL REG_TX_VACANCY (mock.txVacancy % 2 ^ 32),
               .writeL REG_TX_DESTINATION ((dest % 2 ^ 8) &&& 0x0f)]
           ++ (wevs ++ .writeL REG_TX_LENGTH (data.length % 2 ^ 32)
                :: (txPoll f mock.txStatusSeq).2)) := by
    simp only [StreamFifo.write_bytes]
    rw [if_neg hvac, hemit, hp]
    exact rfl
  refine ⟨by rw [hmain], ?_⟩
  rw [hmain]
  have hw : List.filter (Ev.isWriteTo REG_TX_LENGTH) wevs = [] :=
    List.filter_eq_nil_iff.mpr (fun ev h => by
      simp [isDataPortWrite_not_txLength ev (writeEmit_events f data ev
        (by rw [hemit]; exact h))])
  have hpz : List.filter (Ev.isWriteTo REG_TX_LENGTH) (txPoll f mock.txStatusSeq).2 = [] :=
    List.filter_eq_nil_iff.mpr (fun ev h => by
      simp [txPoll_no_txLength f mock.txStatusSeq ev h])
  simp only [REG_TX_LENGTH] at hw hpz
  simp [List.filter_append, hw, hpz, interruptsClearTxTrace, Ev.isWriteTo,
    REG_INTERRUPT_STATUS, REG_TX_VACANCY, REG_TX_DESTINATION, REG_TX_LENGTH,
    Nat.mod_eq_of_lt hlen]
  exact hlen

/-- Witness for C8: a W64 two-region handle pushing 16 bytes with
vacancy 5 and an immediate `TX_COMPLETE`. -/
theorem write_length_register_witness :
    ((StreamFifo.mk .U64 0 (some 1)).write_bytes
        { mockZero with txVacancy := 5, txStatusSeq := [INTERRUPT_TX_COMPLETE] }
        (List.replicate 16 0xAA) 0).1 = .ok 16
      ∧ ((StreamFifo.mk .U64 0 (some 1)).write_bytes
        { mockZero with txVacancy := 5, txStatusSeq := [INTERRUPT_TX_COMPLETE] }
        (List.replicate 16 0xAA) 0).2.filter (Ev.isWriteTo REG_TX_LENGTH)
        = [.writeL REG_TX_LENGTH 16] :=
  write_length_register (StreamFifo.mk .U64 0 (some 1))
    { mockZero with txVacancy := 5, txStatusSeq := [INTERRUPT_TX_COMPLETE] }
    (List.replicate 16 0xAA) 0
    [.writeF FULL_REG_WRITE .U64 0xAAAAAAAAAAAAAAAA,
     .writeF FULL_REG_WRITE .U64 0xAAAAAAAAAAAAAAAA]
    (by decide) (by decide) (by decide) (by decide)

/-- C6: when an error bit is observed in `INTERRUPT_STATUS`, the engine
performs a full `reset` and then returns the classified error.  Read
side (drain loop completed): `RX_OVER_READ` maps to `OverRun`, and
otherwise `RX_UNDER_READ` or `RX_UNDER_RUN` to `UnderRun`, with the
whole reset write sequence following the status read in the trace.
Write side (emission completed, error on the first status poll):
`TX_OVER_RUN` maps to `OverRun` (winning when both bits are set), and
otherwise `TX_LENGTH_MISMATCH` to `LengthMismatch`, again with the reset
sequence after the status read. -/
theorem status_error_classification_and_reset
    (f : StreamFifo) (mock : Mock) (buf data : List Nat) (dest : Nat)
    (buf2 : List Nat) (levs wevs : List Ev) (s0 : Nat) (rest : List Nat) :
    (mock.occupancy % 2 ^ 32 ≠ 0 →
      f.readDrain mock
          ((min buf.length ((mock.rxLength % 2 ^ 32) &&& 0x003fffff)
            + (f.data_width.byte_count - 1)) / f.data_width.byte_count) buf
        = (.ok buf2, levs) →
      (mock.rxStatus % 2 ^ 32) &&& INTERRUPT_RX_ERROR ≠ 0 →
      (((mock.rxStatus % 2 ^ 32) &&& INTERRUPT_RX_OVER_READ = INTERRUPT_RX_OVER_READ →
          (f.read_bytes mock buf).1 = .err .OverRun)
        ∧ (¬ ((mock.rxStatus % 2 ^ 32) &&& INTERRUPT_RX_OVER_READ
              = INTERRUPT_RX_OVER_READ) →
            ((mock.rxStatus % 2 ^ 32) &&& INTERRUPT_RX_UNDER_READ
                = INTERRUPT_RX_UNDER_READ
              ∨ (mock.rxStatus % 2 ^ 32) &&& INTERRUPT_RX_UNDER_RUN
                = INTERRUPT_RX_UNDER_RUN) →
            (f.read_bytes mock buf).1 = .err .UnderRun)
        ∧ (f.read_bytes mock buf).2
            = .readL REG_RX_OCCUPANCY (mock.occupancy % 2 ^ 32)
                :: interruptsClearRxTrace
              ++ [.readL REG_RX_LENGTH (mock.rxLength % 2 ^ 32),
                  .readL REG_RX_DESTINATION (mock.rxDestination % 2 ^ 32)]
              ++ levs
              ++ .readL REG_INTERRUPT_STATUS (mock.rxStatus % 2 ^ 32)
                :: (f.reset).2))
    ∧ (¬ (mock.txVacancy % 2 ^ 32
          < (data.length + (f.data_width.byte_count - 1)) / f.data_width.byte_count) →
      f.writeEmit data = (.ok (), wevs) →
      mock.txStatusSeq = s0 :: rest →
      (s0 % 2 ^ 32) &&& INTERRUPT_TX_ERROR ≠ 0 →
      (((s0 % 2 ^ 32) &&& INTERRUPT_TX_OVER_RUN = INTERRUPT_TX_OVER_RUN →
          (f.write_bytes mock data dest).1 = .err .OverRun)
        ∧ (¬ ((s0 % 2 ^ 32) &&& INTERRUPT_TX_OVER_RUN = INTERRUPT_TX_OVER_RUN) →
            (s0 % 2 ^ 32) &&& INTERRUPT_TX_LENGTH_MISMATCH
              = INTERRUPT_TX_LENGTH_MISMATCH →
            (f.write_bytes mock data dest).1 = .err .LengthMismatch)
        ∧ (f.write_bytes mock data dest).2
            = interruptsClearTxTrace
              ++ [.readL REG_TX_VACANCY (mock.txVacancy % 2 ^ 32),
                  .writeL REG_TX_DESTINATION ((dest % 2 ^ 8) &&& 0x0f)]
              ++ (wevs
                ++ .writeL REG_TX_LENGTH (data.length % 2 ^ 32)
                  :: .readL REG_INTERRUPT_STATUS (s0 % 2 ^ 32)
                  :: (f.reset).2))) := by
  constructor
  · intro hocc hdrain herr
    refine ⟨?_, ?_, ?_⟩
    · intro h1
      simp only [StreamFifo.read_bytes, if_neg hocc, hdrain, if_pos herr,
        if_pos h1]
    · intro h1n h2
      simp only [StreamFifo.read_bytes, if_neg hocc, hdrain, if_pos herr,
        if_neg h1n, if_pos h2]
    · simp only [StreamFifo.read_bytes, if_neg hocc, hdrain, if_pos herr]
  · intro hvac hemit hseq herr2
    refine ⟨?_, ?_, ?_⟩
    · intro h1
      simp only [StreamFifo.write_bytes, if_neg hvac, hemit, hseq, txPoll,
        if_pos herr2, if_pos h1]
    · intro h1n h2
      simp only [StreamFifo.write_bytes, if_neg hvac, hemit, hseq, txPoll,
        if_pos herr2, if_neg h1n, if_pos h2]
    · by_cases h1 : (s0 % 2 ^ 32) &&& INTERRUPT_TX_OVER_RUN = INTERRUPT_TX_OVER_RUN
      · simp only [StreamFifo.write_bytes, if_neg hvac, hemit, hseq, txPoll,
          if_pos herr2, if_pos h1]
        simp [List.append_assoc]
      · by_cases h2 : (s0 % 2 ^ 32) &&& INTERRUPT_TX_LENGTH_MISMATCH
            = INTERRUPT_TX_LENGTH_MISMATCH
        · simp only [StreamFifo.write_bytes, if_neg hvac, hemit, hseq, txPoll,
            if_pos herr2, if_neg h1, if_pos h2]
          simp [List.append_assoc]
        · simp only [StreamFifo.write_bytes, if_neg hvac, hemit, hseq, txPoll,
            if_pos herr2, if_neg h1, if_neg h2]
          simp [List.append_assoc]

/-- Witness for C6: a read with both `RX_OVER_READ` and `RX_UNDER_RUN`
set classifies as `OverRun`; a write with only `TX_LENGTH_MISMATCH` set
classifies as `LengthMismatch`. -/
theorem status_error_classification_and_reset_witness :
    ((StreamFifo.mk .U32 0 none).read_bytes
        { mockZero with
          occupancy := 1
          rxStatus := INTERRUPT_RX_OVER_READ ||| INTERRUPT_RX_UNDER_RUN } []).1
      = .err .OverRun
    ∧ ((StreamFifo.mk .U32 0 none).write_bytes
        { mockZero with txStatusSeq := [INTERRUPT_TX_LENGTH_MISMATCH] } [] 0).1
      = .err .LengthMismatch :=
  ⟨((status_error_classification_and_reset (StreamFifo.mk .U32 0 none)
      { mockZero with
        occupancy := 1
        rxStatus := INTERRUPT_RX_OVER_READ ||| INTERRUPT_RX_UNDER_RUN }
      [] [] 0 [] [] [] 0 []).1 (by decide) (by decide) (by decide)).1 (by decide),
   ((status_error_classification_and_reset (StreamFifo.mk .U32 0 none)
      { mockZero with txStatusSeq := [INTERRUPT_TX_LENGTH_MISMATCH] }
      [] [] 0 [] [] [] INTERRUPT_TX_LENGTH_MISMATCH []).2
      (by decide) (by decide) rfl (by decide)).2.1 (by decide) (by decide)⟩

end Plrs
